import Mathlib

/-!
Shallow embedding of `its-a-plane-python/utilities/overhead.py`
(class `SFORunwayTracker`) and proofs about it.

Modelling conventions:
- Python flight objects have optional attributes; we model them as a
  structure of `Option` fields, with `hasattr` becoming `Option.isSome`.
- Numeric attributes (coordinates, altitude, vertical speed, heading) are
  modelled as exact rationals.
- The source compares `math.sqrt(dx**2 + dy**2)` values against each other
  and against `RUNWAY_PROXIMITY_THRESHOLD`; since the square root is
  strictly monotone on nonnegative reals, we model these comparisons on
  squared distances, comparing against the squared threshold.
- Exceptions are modelled with `Except`.  The `KeyError`/`AttributeError`
  class caught by the per-flight retry loop is `PErr.fieldErr`; any other
  exception (network failure, etc.) is `PErr.genErr` and escapes the retry
  loop to the cycle-level handler.
- The provider (`FlightRadar24API`) is modelled as an oracle: the flight
  query either raises or returns a list of flights, and the detail lookup
  for flight index `i` on attempt number `k` either raises (with one of
  the two error classes) or returns a detail payload.
- The lock-protected blocks of the source are single state transitions of
  the model, which is how atomicity of each block is expressed.
-/

namespace PlaneTracker

/-- The four runway-end identifiers appearing as keys of
`RUNWAY_28_THRESHOLD` in the source. -/
inductive Runway
  | r28L
  | r28R
  | r10L
  | r10R
deriving DecidableEq, Repr

open Runway

/-- The `RUNWAY_28_THRESHOLD` table: runway end to (lat, lon). -/
def RUNWAY_28_THRESHOLD : Runway → ℚ × ℚ
  | r28L => (37.6161, -122.3580)
  | r28R => (37.6188, -122.3530)
  | r10L => (37.6213, -122.3790)
  | r10R => (37.6191, -122.3795)

/-- Configuration constant `MAX_FLIGHT_LOOKUP = 10`. -/
def MAX_FLIGHT_LOOKUP : Nat := 10

/-- Configuration constant `LANDING_ALTITUDE_THRESHOLD = 1000` feet. -/
def LANDING_ALTITUDE_THRESHOLD : ℚ := 1000

/-- Configuration constant `TAKEOFF_ALTITUDE_THRESHOLD = 3000` feet. -/
def TAKEOFF_ALTITUDE_THRESHOLD : ℚ := 3000

/-- Configuration constant `RUNWAY_PROXIMITY_THRESHOLD = 0.01` degrees. -/
def RUNWAY_PROXIMITY_THRESHOLD : ℚ := 0.01

/-- Configuration constant `RETRIES = 3`. -/
def RETRIES : Nat := 3

/-- A flight record returned by the provider query.  Every attribute may be
absent (`hasattr` in the source), hence the `Option` fields. -/
structure Flight where
  callsign : Option String
  latitude : Option ℚ
  longitude : Option ℚ
  altitude : Option ℚ
  vertical_speed : Option ℚ
  heading : Option ℚ
deriving DecidableEq, Repr

/-- The "28L/28R" active-pair value assigned by `determine_runway_config`. -/
def pair28 : List Runway := [r28L, r28R]

/-- The "10L/10R" active-pair value assigned by `determine_runway_config`. -/
def pair10 : List Runway := [r10L, r10R]

/-- One iteration of the counting loop of `determine_runway_config`:
accumulator is (west_operations, east_operations). -/
def configStep (acc : Nat × Nat) (flight : Flight) : Nat × Nat :=
  match flight.heading with
  | some h =>
    if 260 ≤ h ∧ h ≤ 300 then (acc.1 + 1, acc.2)
    else if 80 ≤ h ∧ h ≤ 120 then (acc.1, acc.2 + 1)
    else acc
  | none => acc

/-- `SFORunwayTracker.determine_runway_config`, as the value it stores into
`self._active_runways`. -/
def determine_runway_config (flights : List Flight) : List Runway :=
  let counts := flights.foldl configStep (0, 0)
  if counts.2 > counts.1 then pair10 else pair28

/-- `SFORunwayTracker.determine_operation`. -/
def determine_operation (flight : Flight) : Option String :=
  match flight.altitude, flight.vertical_speed with
  | some alt, some vs =>
    if alt ≤ LANDING_ALTITUDE_THRESHOLD ∧ vs < 0 then some "Landing"
    else if alt ≤ TAKEOFF_ALTITUDE_THRESHOLD ∧ vs > 0 then some "Takeoff"
    else none
  | _, _ => none

/-- Squared planar distance from (lat, lon) to a threshold point; the
source computes the square root of this value, and all its comparisons of
that square root are equivalent to comparisons of this square. -/
def dist2 (lat lon : ℚ) (t : ℚ × ℚ) : ℚ :=
  (lat - t.1) ^ 2 + (lon - t.2) ^ 2

/-- The scanning loop of `determine_runway`: walks the active-runway list
carrying (closest_runway, min_distance), where `none` as the distance plays
the role of the initial `float(inf)`, and distances are squared. -/
def runwayScan (lat lon : ℚ) : List Runway → Option Runway → Option ℚ →
    Option Runway × Option ℚ
  | [], closest, minD => (closest, minD)
  | r :: rs, _, none =>
    runwayScan lat lon rs (some r) (some (dist2 lat lon (RUNWAY_28_THRESHOLD r)))
  | r :: rs, closest, some m =>
    let d := dist2 lat lon (RUNWAY_28_THRESHOLD r)
    if d < m then runwayScan lat lon rs (some r) (some d)
    else runwayScan lat lon rs closest (some m)

/-- `SFORunwayTracker.determine_runway`, parameterised by the current
`self._active_runways` list. -/
def determine_runway (active : List Runway) (flight : Flight) : Option Runway :=
  match flight.latitude, flight.longitude with
  | some lat, some lon =>
    match runwayScan lat lon active none none with
    | (closest, some m) =>
      if m ≤ RUNWAY_PROXIMITY_THRESHOLD ^ 2 then closest else none
    | (_, none) => none
  | _, _ => none

/-- A detail payload from `get_flight_details`, reduced to the two paths
the source extracts: `aircraft.model.code` and `airline.name`.  A missing
path is `none`; `dict.get` chains with defaults never raise, so extraction
uses `Option.getD "Unknown"`. -/
structure Detail where
  aircraftCode : Option String
  airlineName : Option String
deriving DecidableEq, Repr

/-- Exception classes relevant to the per-flight retry loop:
`fieldErr` is the `(KeyError, AttributeError)` class the `except` clause
catches; `genErr` is any other exception, which escapes the loop. -/
inductive PErr
  | fieldErr
  | genErr
deriving DecidableEq, Repr

/-- An output record, the dict literal built inside `_grab_data`.  All
fields are mandatory: building it in the source dereferences
`flight.callsign`, `flight.altitude`, `flight.vertical_speed` and
`flight.heading`, raising `AttributeError` when one is absent. -/
structure FlightData where
  callsign : String
  operation : String
  runway : Runway
  aircraft : String
  airline : String
  altitude : ℚ
  vertical_speed : ℚ
  heading : ℚ
deriving DecidableEq, Repr

/-- The body of one `try` attempt inside the retry loop, given the outcome
`d` of `get_flight_details` for this attempt: compute operation and runway
from the flight itself, and if both are non-None build the record.
Dereferencing a missing `callsign` or `heading` attribute raises
`AttributeError`, i.e. `PErr.fieldErr` (when the operation is non-None the
altitude and vertical-speed attributes are necessarily present).
`Except.ok none` means the attempt succeeded without appending a record. -/
def attemptBody (active : List Runway) (flight : Flight)
    (d : Except PErr Detail) : Except PErr (Option FlightData) :=
  match d with
  | .error e => .error e
  | .ok details =>
    match determine_operation flight, determine_runway active flight with
    | some op, some rw =>
      match flight.callsign, flight.altitude, flight.vertical_speed,
          flight.heading with
      | some cs, some alt, some vs, some hd =>
        .ok (some
          { callsign := cs
            operation := op
            runway := rw
            aircraft := details.aircraftCode.getD "Unknown"
            airline := details.airlineName.getD "Unknown"
            altitude := alt
            vertical_speed := vs
            heading := hd })
      | _, _, _, _ => .error PErr.fieldErr
    | _, _ => .ok none

/-- Observable events of the retry loop, used to state how many attempts
run and where `sleep(RATE_LIMIT_DELAY)` happens. -/
inductive Ev
  | attemptEv
  | sleepEv
deriving DecidableEq, Repr

/-- The `while retries:` loop for one flight.  `att k` is the outcome of
the whole try-body on attempt number `k`; the second argument is the
current attempt number and the third is the remaining `retries` counter.
On success the loop breaks immediately; on `fieldErr` it decrements and
sleeps; a `genErr` escapes the loop (`Except.error ()`).  Falling out of
the loop with the counter exhausted appends nothing (`Except.ok none`).
The event trace records each attempt and each sleep. -/
def flightLoop (att : Nat → Except PErr (Option FlightData)) :
    Nat → Nat → Except Unit (Option FlightData) × List Ev
  | _, 0 => (.ok none, [])
  | k, n + 1 =>
    match att k with
    | .ok r => (.ok r, [Ev.attemptEv])
    | .error PErr.genErr => (.error (), [Ev.attemptEv])
    | .error PErr.fieldErr =>
      let rest := flightLoop att (k + 1) n
      (rest.1, Ev.attemptEv :: Ev.sleepEv :: rest.2)

/-- The `for flight in flights[:MAX_FLIGHT_LOOKUP]:` loop.  `det i k` is
the outcome of `get_flight_details` for the flight at position `i` of the
truncated list on attempt `k`.  A `genErr` anywhere aborts the whole loop
(it propagates to the cycle-level handler); otherwise the records produced
for each flight are accumulated in flight order. -/
def cycleLoop (det : Nat → Nat → Except PErr Detail) (active : List Runway) :
    List Flight → Nat → Except Unit (List FlightData)
  | [], _ => .ok []
  | f :: fs, i =>
    match (flightLoop (fun k => attemptBody active f (det i k)) 0 RETRIES).1 with
    | .error _ => .error ()
    | .ok r =>
      match cycleLoop det active fs (i + 1) with
      | .error e => .error e
      | .ok rest => .ok (r.toList ++ rest)

/-- The provider oracle: the flight query (`get_bounds` + `get_flights`)
either raises (any exception, caught at the cycle boundary) or returns a
flight list; `details i k` is the detail lookup for flight `i`, attempt
`k`. -/
structure Provider where
  flights : Except Unit (List Flight)
  details : Nat → Nat → Except PErr Detail

/-- The lock-protected state of `SFORunwayTracker`. -/
structure TrackerState where
  data : List FlightData
  new_data : Bool
  processing : Bool
  active_runways : List Runway
deriving DecidableEq, Repr

/-- The state established by `SFORunwayTracker.__init__`. -/
def initState : TrackerState :=
  { data := [], new_data := false, processing := false,
    active_runways := pair28 }

/-- `SFORunwayTracker._grab_data`: one collection cycle, as a state
transition.  The first locked block clears the new-data flag and sets
processing; on the success path the second locked block installs the
accumulated data; any exception lands in the `except` clause, which only
resets the two flags (the runway configuration, updated before the loop,
keeps its new value when the exception is raised after that update). -/
def grab_data (p : Provider) (s : TrackerState) : TrackerState :=
  let s0 : TrackerState := { s with new_data := false, processing := true }
  match p.flights with
  | .error _ => { s0 with new_data := false, processing := false }
  | .ok flights =>
    let s1 : TrackerState :=
      { s0 with active_runways := determine_runway_config flights }
    match cycleLoop p.details s1.active_runways
        (flights.take MAX_FLIGHT_LOOKUP) 0 with
    | .ok ds =>
      { s1 with new_data := true, processing := false, data := ds }
    | .error _ => { s1 with new_data := false, processing := false }

/-- The `data` property: under the lock, clear the new-data flag and
return `self._data`.  Returns the value read and the successor state. -/
def readData (s : TrackerState) : List FlightData × TrackerState :=
  (s.data, { s with new_data := false })

/-- Tracker states reachable from `__init__` through cycles and reads
(the `new_data` and `processing` properties do not mutate state). -/
inductive Reachable : TrackerState → Prop
  | init : Reachable initState
  | grab (p : Provider) {s : TrackerState} :
      Reachable s → Reachable (grab_data p s)
  | read {s : TrackerState} : Reachable s → Reachable (readData s).2

/-- Spec-side predicate: the flight's heading lies in the west band
[260, 300]. -/
def bandWest (f : Flight) : Bool :=
  match f.heading with
  | some h => decide (260 ≤ h ∧ h ≤ 300)
  | none => false

/-- Spec-side predicate: the flight's heading lies in the east band
[80, 120]. -/
def bandEast (f : Flight) : Bool :=
  match f.heading with
  | some h => decide (80 ≤ h ∧ h ≤ 120)
  | none => false

/-- Spec-side description of an aborted cycle: the provider query raises,
or some detail lookup raises an exception outside the retried
`(KeyError, AttributeError)` class. -/
def cycleRaises (p : Provider) : Prop :=
  p.flights = .error () ∨
  ∃ fs, p.flights = .ok fs ∧
    cycleLoop p.details (determine_runway_config fs)
      (fs.take MAX_FLIGHT_LOOKUP) 0 = .error ()

/-- The event trace of `j` failed attempts, each followed by a sleep. -/
def attemptSleeps : Nat → List Ev
  | 0 => []
  | n + 1 => Ev.attemptEv :: Ev.sleepEv :: attemptSleeps n

/-- A provider whose flight query raises. -/
def pFail : Provider := ⟨.error (), fun _ _ => .ok ⟨none, none⟩⟩

/-- A provider returning an empty flight list. -/
def pEmpty : Provider := ⟨.ok [], fun _ _ => .ok ⟨none, none⟩⟩

/-- A landing flight at the 28L threshold with no callsign attribute. -/
def flightNoCallsign : Flight :=
  ⟨none, some 37.6161, some (-122.3580), some 500, some (-10), some 280⟩

/-- C1: for a flight with altitude and vertical-speed attributes,
`determine_operation` returns Landing iff altitude ≤ 1000 and
vertical_speed < 0, Takeoff iff altitude ≤ 3000 and vertical_speed > 0,
and None exactly when neither holds (in particular when altitude > 3000
or vertical_speed = 0); when either attribute is absent it returns None.
The Takeoff iff shows the guard behaves as if checked independently of the
Landing guard examined before it. -/
theorem claim_C1_determine_operation (f : Flight) :
    ((f.altitude = none ∨ f.vertical_speed = none) →
      determine_operation f = none) ∧
    (∀ a v, f.altitude = some a → f.vertical_speed = some v →
      ((determine_operation f = some "Landing" ↔ a ≤ 1000 ∧ v < 0) ∧
       (determine_operation f = some "Takeoff" ↔ a ≤ 3000 ∧ 0 < v) ∧
       (determine_operation f = none ↔
         ¬(a ≤ 1000 ∧ v < 0) ∧ ¬(a ≤ 3000 ∧ 0 < v)))) := by
  constructor
  · intro h
    unfold determine_operation
    rcases h with h | h
    · rw [h]
    · rw [h]; cases f.altitude <;> rfl
  · intro a v ha hv
    have hd : determine_operation f =
        if a ≤ 1000 ∧ v < 0 then some "Landing"
        else if a ≤ 3000 ∧ 0 < v then some "Takeoff" else none := by
      unfold determine_operation
      rw [ha, hv]
      rfl
    rw [hd]
    by_cases h1 : a ≤ 1000 ∧ v < 0
    · have h2 : ¬(a ≤ 3000 ∧ 0 < v) := fun hc => absurd h1.2 (not_lt.mpr hc.2.le)
      simp [h1, h2]
    · by_cases h2 : a ≤ 3000 ∧ 0 < v
      · simp [h1, h2]
      · simp [h1, h2]

/-- Witness for C1: a flight at 500 ft descending at 10 ft/min is
classified as Landing. -/
theorem claim_C1_witness :
    determine_operation
      { callsign := none, latitude := none, longitude := none,
        altitude := some 500, vertical_speed := some (-10), heading := none }
      = some "Landing" :=
  (((claim_C1_determine_operation _).2 500 (-10) rfl rfl).1).mpr
    (by norm_num)

/-- Auxiliary: the counting loop of `determine_runway_config` computes the
lengths of the west-band and east-band sublists on top of its starting
accumulator. -/
theorem configStep_foldl (flights : List Flight) (w e : Nat) :
    flights.foldl configStep (w, e) =
      (w + (flights.filter bandWest).length,
       e + (flights.filter bandEast).length) := by
  induction flights generalizing w e with
  | nil => simp
  | cons f fs ih =>
    rw [List.foldl_cons]
    cases hh : f.heading with
    | none =>
      have hw : bandWest f = false := by simp [bandWest, hh]
      have he : bandEast f = false := by simp [bandEast, hh]
      rw [show configStep (w, e) f = (w, e) by simp [configStep, hh]]
      simp [List.filter_cons, hw, he, ih]
    | some h =>
      by_cases h1 : 260 ≤ h ∧ h ≤ 300
      · have h2 : ¬(80 ≤ h ∧ h ≤ 120) := fun hc => by
          have := h1.1.trans hc.2
          norm_num at this
        have hw : bandWest f = true := by simp [bandWest, hh, h1]
        have he : bandEast f = false := by
          simp only [bandEast, hh, decide_eq_false_iff_not]
          exact h2
        rw [show configStep (w, e) f = (w + 1, e) by simp [configStep, hh, h1]]
        rw [ih]
        simp [List.filter_cons, hw, he]
        omega
      · by_cases h2 : 80 ≤ h ∧ h ≤ 120
        · have hw : bandWest f = false := by
            simp only [bandWest, hh, decide_eq_false_iff_not]
            exact h1
          have he : bandEast f = true := by simp [bandEast, hh, h2]
          rw [show configStep (w, e) f = (w, e + 1) by
            simp [configStep, hh, h1, h2]]
          rw [ih]
          simp [List.filter_cons, hw, he]
          omega
        · have hw : bandWest f = false := by
            simp only [bandWest, hh, decide_eq_false_iff_not]
            exact h1
          have he : bandEast f = false := by
            simp only [bandEast, hh, decide_eq_false_iff_not]
            exact h2
          rw [show configStep (w, e) f = (w, e) by
            simp [configStep, hh, h1, h2]]
          simp [List.filter_cons, hw, he, ih]

/-- C2: for a flight with latitude and longitude attributes and any active
pair, `determine_runway` compares the planar distances from the position
to the two thresholds of the active pair only, and returns the runway of
the smaller distance iff that minimum is at most 0.01 degrees, otherwise
None; on an exact tie the first-listed runway of the pair wins (the update
uses a strict comparison).  Distances appear squared because the square
root of the source is strictly monotone. -/
theorem claim_C2_determine_runway (f : Flight) (lat lon : ℚ) (a b : Runway)
    (hlat : f.latitude = some lat) (hlon : f.longitude = some lon) :
    determine_runway [a, b] f =
      if min (dist2 lat lon (RUNWAY_28_THRESHOLD a))
          (dist2 lat lon (RUNWAY_28_THRESHOLD b))
          ≤ RUNWAY_PROXIMITY_THRESHOLD ^ 2 then
        some (if dist2 lat lon (RUNWAY_28_THRESHOLD b)
            < dist2 lat lon (RUNWAY_28_THRESHOLD a) then b else a)
      else none := by
  have hscan : runwayScan lat lon [a, b] none none =
      if dist2 lat lon (RUNWAY_28_THRESHOLD b)
          < dist2 lat lon (RUNWAY_28_THRESHOLD a) then
        (some b, some (dist2 lat lon (RUNWAY_28_THRESHOLD b)))
      else (some a, some (dist2 lat lon (RUNWAY_28_THRESHOLD a))) := by
    simp only [runwayScan]
  unfold determine_runway
  rw [hlat, hlon]
  simp only [hscan]
  rcases lt_or_le (dist2 lat lon (RUNWAY_28_THRESHOLD b))
      (dist2 lat lon (RUNWAY_28_THRESHOLD a)) with h | h
  · rw [if_pos h, min_eq_right h.le, if_pos h]
  · rw [if_neg (not_lt.mpr h), min_eq_left h, if_neg (not_lt.mpr h)]

/-- Witness for C2: a flight exactly at the 28L threshold with the 28
pair active is assigned runway 28L. -/
theorem claim_C2_witness :
    determine_runway pair28
      { callsign := none, latitude := some 37.6161,
        longitude := some (-122.3580), altitude := none,
        vertical_speed := none, heading := none } = some Runway.r28L := by
  have h := claim_C2_determine_runway
    { callsign := none, latitude := some 37.6161,
      longitude := some (-122.3580), altitude := none,
      vertical_speed := none, heading := none }
    37.6161 (-122.3580) Runway.r28L Runway.r28R rfl rfl
  rw [show pair28 = [Runway.r28L, Runway.r28R] from rfl, h]
  norm_num [dist2, RUNWAY_28_THRESHOLD, RUNWAY_PROXIMITY_THRESHOLD, min_def]

/-- C3: `determine_runway_config` counts flights with heading in
[260, 300] as west operations and flights with heading in [80, 120] as
east operations, ignoring missing headings and headings outside both
bands, and selects the 10L/10R pair exactly when the east count strictly
exceeds the west count, selecting 28L/28R otherwise (ties included). -/
theorem claim_C3_determine_runway_config (flights : List Flight) :
    determine_runway_config flights =
      if (flights.filter bandWest).length < (flights.filter bandEast).length
      then pair10 else pair28 := by
  unfold determine_runway_config
  rw [configStep_foldl]
  simp [gt_iff_lt]

/-- C4: when the cycle raises (either the provider query or a detail
lookup raising outside the retried class), the stored result list is left
exactly as before the cycle, the new-data flag and the processing flag end
up false, and `grab_data` still returns a state (the model of the source's
`except` clause swallowing the exception). -/
theorem claim_C4_cycle_failure (p : Provider) (s : TrackerState)
    (h : cycleRaises p) :
    (grab_data p s).data = s.data ∧
    (grab_data p s).new_data = false ∧
    (grab_data p s).processing = false := by
  rcases h with h | ⟨fs, hf, hc⟩
  · simp [grab_data, h]
  · simp [grab_data, hf, hc]

/-- Witness for C4: a provider whose flight query raises leaves the
initial state's empty result in place and both flags false. -/
theorem claim_C4_witness :
    (grab_data pFail initState).data = initState.data ∧
    (grab_data pFail initState).new_data = false ∧
    (grab_data pFail initState).processing = false :=
  claim_C4_cycle_failure pFail initState (Or.inl rfl)

/-- C5: when the cycle completes without an uncaught exception, the stored
result equals the accumulated cycle result (empty lists included), the
new-data flag is true and the processing flag is false, all in the single
final state transition. -/
theorem claim_C5_cycle_success (p : Provider) (s : TrackerState)
    (fs : List Flight) (ds : List FlightData)
    (hf : p.flights = .ok fs)
    (hc : cycleLoop p.details (determine_runway_config fs)
      (fs.take MAX_FLIGHT_LOOKUP) 0 = .ok ds) :
    (grab_data p s).data = ds ∧
    (grab_data p s).new_data = true ∧
    (grab_data p s).processing = false := by
  simp [grab_data, hf, hc]

/-- Witness for C5: a cycle over an empty flight list succeeds, stores the
empty result and reports new data. -/
theorem claim_C5_witness :
    (grab_data pEmpty initState).data = [] ∧
    (grab_data pEmpty initState).new_data = true ∧
    (grab_data pEmpty initState).processing = false :=
  claim_C5_cycle_success pEmpty initState [] [] rfl rfl

/-- C6: reading the data returns the stored result and clears the
new-data flag in the same transition; a second immediate read returns the
same records, the flag is false after the first read and stays false
after the second, and the second read does not change the state at all. -/
theorem claim_C6_read_idempotent (s : TrackerState) :
    (readData s).1 = s.data ∧
    ((readData s).2).new_data = false ∧
    (readData ((readData s).2)).1 = (readData s).1 ∧
    ((readData ((readData s).2)).2).new_data = false ∧
    (readData ((readData s).2)).2 = (readData s).2 :=
  ⟨rfl, rfl, rfl, rfl, rfl⟩

/-- Auxiliary: the closest runway tracked by the scanning loop is either
the incoming accumulator or an element of the scanned list. -/
theorem runwayScan_closest_mem (lat lon : ℚ) (l : List Runway)
    (c : Option Runway) (m : Option ℚ) (r : Runway)
    (h : (runwayScan lat lon l c m).1 = some r) :
    c = some r ∨ r ∈ l := by
  induction l generalizing c m with
  | nil =>
    simp only [runwayScan] at h
    exact Or.inl h
  | cons x xs ih =>
    cases m with
    | none =>
      simp only [runwayScan] at h
      rcases ih (some x) _ h with h1 | h1
      · exact Or.inr (by rw [← Option.some_inj.mp h1]; exact List.mem_cons_self x xs)
      · exact Or.inr (List.mem_cons_of_mem _ h1)
    | some mv =>
      simp only [runwayScan] at h
      by_cases hlt : dist2 lat lon (RUNWAY_28_THRESHOLD x) < mv
      · rw [if_pos hlt] at h
        rcases ih (some x) _ h with h1 | h1
        · exact Or.inr (by rw [← Option.some_inj.mp h1]; exact List.mem_cons_self x xs)
        · exact Or.inr (List.mem_cons_of_mem _ h1)
      · rw [if_neg hlt] at h
        rcases ih c _ h with h1 | h1
        · exact Or.inl h1
        · exact Or.inr (List.mem_cons_of_mem _ h1)

/-- Auxiliary: a runway returned by `determine_runway` belongs to the
active list it searched. -/
theorem determine_runway_mem (active : List Runway) (f : Flight) (r : Runway)
    (h : determine_runway active f = some r) : r ∈ active := by
  unfold determine_runway at h
  cases hlat : f.latitude with
  | none => rw [hlat] at h; simp at h
  | some lat =>
    cases hlon : f.longitude with
    | none => rw [hlat, hlon] at h; simp at h
    | some lon =>
      rw [hlat, hlon] at h
      rcases hscan : runwayScan lat lon active none none with ⟨closest, minD⟩
      cases minD with
      | none =>
        simp only [hscan] at h
        exact Option.noConfusion h
      | some m =>
        simp only [hscan] at h
        by_cases hle : m ≤ RUNWAY_PROXIMITY_THRESHOLD ^ 2
        · rw [if_pos hle] at h
          rcases runwayScan_closest_mem lat lon active none none r
            (by rw [hscan]; exact h) with h1 | h1
          · exact absurd h1 (by simp)
          · exact h1
        · rw [if_neg hle] at h
          simp at h

/-- Auxiliary: a record produced by one successful attempt carries exactly
the source flight's callsign, altitude, vertical speed and heading (all
present), its runway comes from `determine_runway` and its operation from
`determine_operation`. -/
theorem attemptBody_ok_some (active : List Runway) (f : Flight)
    (d : Except PErr Detail) (fd : FlightData)
    (h : attemptBody active f d = .ok (some fd)) :
    f.callsign = some fd.callsign ∧ f.altitude = some fd.altitude ∧
    f.vertical_speed = some fd.vertical_speed ∧
    f.heading = some fd.heading ∧
    determine_runway active f = some fd.runway ∧
    determine_operation f = some fd.operation := by
  unfold attemptBody at h
  rcases d with e | det
  · exact Except.noConfusion h
  · rcases hop : determine_operation f with _ | op <;> rw [hop] at h
    · simp at h
    · rcases hrw : determine_runway active f with _ | rw <;> rw [hrw] at h
      · simp at h
      · rcases hcs : f.callsign with _ | cs <;> rw [hcs] at h
        · simp at h
        · rcases halt : f.altitude with _ | alt <;> rw [halt] at h
          · simp at h
          · rcases hvs : f.vertical_speed with _ | vs <;> rw [hvs] at h
            · simp at h
            · rcases hhd : f.heading with _ | hd <;> rw [hhd] at h
              · simp at h
              · simp only [Except.ok.injEq, Option.some.injEq] at h
                subst h
                exact ⟨rfl, rfl, rfl, rfl, rfl, rfl⟩

/-- Auxiliary: a record returned by the retry loop was produced by some
attempt. -/
theorem flightLoop_ok_some (att : Nat → Except PErr (Option FlightData))
    (k n : Nat) (fd : FlightData)
    (h : (flightLoop att k n).1 = .ok (some fd)) :
    ∃ j, att j = .ok (some fd) := by
  induction n generalizing k with
  | zero => simp [flightLoop] at h
  | succ n ih =>
    rw [flightLoop] at h
    cases hA : att k with
    | ok r =>
      rw [hA] at h
      simp at h
      exact ⟨k, by rw [hA, h]⟩
    | error e =>
      cases e with
      | genErr => rw [hA] at h; simp at h
      | fieldErr => rw [hA] at h; exact ih (k + 1) h

/-- Auxiliary: every record of a successful cycle loop came from a flight
of the processed list through a successful attempt. -/
theorem cycleLoop_mem (det : Nat → Nat → Except PErr Detail)
    (active : List Runway) (l : List Flight) (i : Nat) (ds : List FlightData)
    (h : cycleLoop det active l i = .ok ds) (fd : FlightData) (hm : fd ∈ ds) :
    ∃ f ∈ l, ∃ d, attemptBody active f d = .ok (some fd) := by
  induction l generalizing i ds with
  | nil =>
    simp only [cycleLoop, Except.ok.injEq] at h
    subst h
    simp at hm
  | cons f fs ih =>
    rw [cycleLoop] at h
    cases hfl : (flightLoop (fun k => attemptBody active f (det i k))
        0 RETRIES).1 with
    | error e => rw [hfl] at h; exact Except.noConfusion h
    | ok r =>
      rw [hfl] at h
      cases hrest : cycleLoop det active fs (i + 1) with
      | error e => rw [hrest] at h; exact Except.noConfusion h
      | ok rest =>
        rw [hrest] at h
        simp only [Except.ok.injEq] at h
        subst h
        rcases List.mem_append.mp hm with hm1 | hm2
        · have hr : r = some fd := by
            cases r with
            | none => simp at hm1
            | some x => simp at hm1; rw [hm1]
          obtain ⟨j, hj⟩ := flightLoop_ok_some _ 0 RETRIES fd (by rw [hfl, hr])
          exact ⟨f, List.mem_cons_self f fs, det i j, hj⟩
        · obtain ⟨g, hg, d, hd⟩ := ih (i + 1) rest hrest hm2
          exact ⟨g, List.mem_cons_of_mem _ hg, d, hd⟩

/-- Auxiliary: the runway configuration assigned by
`determine_runway_config` is one of the two fixed pairs. -/
theorem determine_runway_config_cases (fs : List Flight) :
    determine_runway_config fs = pair28 ∨
    determine_runway_config fs = pair10 := by
  unfold determine_runway_config
  simp only []
  split <;> simp

/-- C7: in every reachable tracker state the active pair is one of the two
fixed sets, 28L/28R initially; and in a cycle whose completion reports new
data every stored record carries a runway belonging to the pair that was
active when the record was built, which is the pair of the final state of
that cycle (the nearest-runway search only iterates over the active
pair). -/
theorem claim_C7_invariant :
    (∀ s, Reachable s →
      s.active_runways = pair28 ∨ s.active_runways = pair10) ∧
    (∀ (p : Provider) (s : TrackerState), (grab_data p s).new_data = true →
      ∀ fd ∈ (grab_data p s).data,
        fd.runway ∈ (grab_data p s).active_runways) := by
  constructor
  · intro s hs
    induction hs with
    | init => exact Or.inl rfl
    | grab p hs ih =>
      rename_i s'
      cases hf : p.flights with
      | error u =>
        have heq : (grab_data p s').active_runways = s'.active_runways := by
          simp [grab_data, hf]
        rw [heq]; exact ih
      | ok fs =>
        cases hc : cycleLoop p.details (determine_runway_config fs)
            (fs.take MAX_FLIGHT_LOOKUP) 0 with
        | ok ds =>
          have heq : (grab_data p s').active_runways =
              determine_runway_config fs := by
            simp [grab_data, hf, hc]
          rw [heq]; exact determine_runway_config_cases fs
        | error e =>
          have heq : (grab_data p s').active_runways =
              determine_runway_config fs := by
            simp [grab_data, hf, hc]
          rw [heq]; exact determine_runway_config_cases fs
    | read hs ih => exact ih
  · intro p s hnew fd hm
    cases hf : p.flights with
    | error u =>
      rw [show (grab_data p s).new_data = false by simp [grab_data, hf]]
        at hnew
      exact Bool.noConfusion hnew
    | ok fs =>
      cases hc : cycleLoop p.details (determine_runway_config fs)
          (fs.take MAX_FLIGHT_LOOKUP) 0 with
      | error e =>
        rw [show (grab_data p s).new_data = false by simp [grab_data, hf, hc]]
          at hnew
        exact Bool.noConfusion hnew
      | ok ds =>
        rw [show (grab_data p s).data = ds by simp [grab_data, hf, hc]] at hm
        rw [show (grab_data p s).active_runways = determine_runway_config fs
          by simp [grab_data, hf, hc]]
        obtain ⟨f, hfm, d, hd⟩ := cycleLoop_mem _ _ _ _ _ hc fd hm
        exact determine_runway_mem _ _ _
          (attemptBody_ok_some _ _ _ _ hd).2.2.2.2.1

/-- Witness for C7: the initial state satisfies the active-pair
invariant. -/
theorem claim_C7_witness :
    initState.active_runways = pair28 ∨ initState.active_runways = pair10 :=
  claim_C7_invariant.1 initState Reachable.init

/-- Auxiliary: the retry loop runs at most as many attempts as its
remaining-retries counter. -/
theorem flightLoop_count_le (att : Nat → Except PErr (Option FlightData))
    (n k : Nat) :
    ((flightLoop att k n).2.count Ev.attemptEv) ≤ n := by
  induction n generalizing k with
  | zero => simp [flightLoop]
  | succ n ih =>
    rw [flightLoop]
    cases att k with
    | ok r => simp
    | error e =>
      cases e with
      | genErr => simp
      | fieldErr =>
        have := ih (k + 1)
        simp [List.count_cons]
        omega

/-- Auxiliary: after `j` field-error attempts, a successful attempt ends
the loop at once with whatever the attempt produced; each failed attempt
is followed by exactly one sleep. -/
theorem flightLoop_success (att : Nat → Except PErr (Option FlightData))
    (n k j : Nat) (r : Option FlightData) (hj : j < n)
    (hfail : ∀ i < j, att (k + i) = .error PErr.fieldErr)
    (hsucc : att (k + j) = .ok r) :
    flightLoop att k n = (.ok r, attemptSleeps j ++ [Ev.attemptEv]) := by
  induction j generalizing k n with
  | zero =>
    cases n with
    | zero => omega
    | succ n =>
      rw [flightLoop]
      rw [show k + 0 = k from rfl] at hsucc
      rw [hsucc]
      rfl
  | succ j ih =>
    cases n with
    | zero => omega
    | succ n =>
      rw [flightLoop]
      have h0 : att k = .error PErr.fieldErr := by
        have := hfail 0 (Nat.succ_pos j)
        rwa [Nat.add_zero] at this
      rw [h0]
      have hrec := ih n (k + 1) (Nat.lt_of_succ_lt_succ hj)
        (fun i hi => by
          have := hfail (i + 1) (Nat.succ_lt_succ hi)
          rwa [show k + (i + 1) = k + 1 + i by omega] at this)
        (by rwa [show k + 1 + j = k + (j + 1) by omega])
      rw [hrec]
      rfl

/-- Auxiliary: when every attempt raises a field error, the loop exhausts
its counter, sleeps after each attempt, and falls through appending
nothing and raising nothing. -/
theorem flightLoop_exhaust (att : Nat → Except PErr (Option FlightData))
    (n k : Nat) (hfail : ∀ i < n, att (k + i) = .error PErr.fieldErr) :
    flightLoop att k n = (.ok none, attemptSleeps n) := by
  induction n generalizing k with
  | zero => rfl
  | succ n ih =>
    rw [flightLoop]
    have h0 : att k = .error PErr.fieldErr := by
      have := hfail 0 (Nat.succ_pos n)
      rwa [Nat.add_zero] at this
    rw [h0]
    have hrec := ih (k + 1) (fun i hi => by
      have := hfail (i + 1) (Nat.succ_lt_succ hi)
      rwa [show k + (i + 1) = k + 1 + i by omega] at this)
    rw [hrec]
    rfl

/-- Auxiliary: an attempt raising outside the field-error class ends the
loop immediately without a retry and propagates the exception. -/
theorem flightLoop_general_error (att : Nat → Except PErr (Option FlightData))
    (n k j : Nat) (hj : j < n)
    (hfail : ∀ i < j, att (k + i) = .error PErr.fieldErr)
    (herr : att (k + j) = .error PErr.genErr) :
    flightLoop att k n = (.error (), attemptSleeps j ++ [Ev.attemptEv]) := by
  induction j generalizing k n with
  | zero =>
    cases n with
    | zero => omega
    | succ n =>
      rw [flightLoop]
      rw [show k + 0 = k from rfl] at herr
      rw [herr]
      rfl
  | succ j ih =>
    cases n with
    | zero => omega
    | succ n =>
      rw [flightLoop]
      have h0 : att k = .error PErr.fieldErr := by
        have := hfail 0 (Nat.succ_pos j)
        rwa [Nat.add_zero] at this
      rw [h0]
      have hrec := ih n (k + 1) (Nat.lt_of_succ_lt_succ hj)
        (fun i hi => by
          have := hfail (i + 1) (Nat.succ_lt_succ hi)
          rwa [show k + (i + 1) = k + 1 + i by omega] at this)
        (by rwa [show k + 1 + j = k + (j + 1) by omega])
      rw [hrec]
      rfl

/-- C8: the retry loop for one flight performs at most RETRIES (3)
attempts; an attempt raising in the field-error class is followed by one
sleep and a retry; a successful attempt exits the loop immediately whether
or not it produced a record; exhausting the counter drops the flight
silently (no record, no error); and only field-class errors retry — any
other exception leaves the loop at once, after the attempt that raised it,
to be handled at the cycle boundary. -/
theorem claim_C8_retry_loop (att : Nat → Except PErr (Option FlightData)) :
    ((flightLoop att 0 RETRIES).2.count Ev.attemptEv ≤ RETRIES) ∧
    (∀ j r, j < RETRIES → (∀ i < j, att i = .error PErr.fieldErr) →
      att j = .ok r →
      flightLoop att 0 RETRIES = (.ok r, attemptSleeps j ++ [Ev.attemptEv])) ∧
    ((∀ i < RETRIES, att i = .error PErr.fieldErr) →
      flightLoop att 0 RETRIES = (.ok none, attemptSleeps RETRIES)) ∧
    (∀ j, j < RETRIES → (∀ i < j, att i = .error PErr.fieldErr) →
      att j = .error PErr.genErr →
      flightLoop att 0 RETRIES =
        (.error (), attemptSleeps j ++ [Ev.attemptEv])) := by
  refine ⟨flightLoop_count_le att RETRIES 0, ?_, ?_, ?_⟩
  · intro j r hj hfail hsucc
    exact flightLoop_success att RETRIES 0 j r hj
      (fun i hi => by simpa using hfail i hi) (by simpa using hsucc)
  · intro hfail
    exact flightLoop_exhaust att RETRIES 0
      (fun i hi => by simpa using hfail i hi)
  · intro j hj hfail herr
    exact flightLoop_general_error att RETRIES 0 j hj
      (fun i hi => by simpa using hfail i hi) (by simpa using herr)

/-- Witness for C8: three field-error attempts exhaust the retries, each
attempt is followed by a sleep, and the flight is dropped silently. -/
theorem claim_C8_witness :
    flightLoop (fun _ => .error PErr.fieldErr) 0 RETRIES =
      (.ok none, attemptSleeps RETRIES) :=
  (claim_C8_retry_loop (fun _ => .error PErr.fieldErr)).2.2.1 (fun _ _ => rfl)

/-- Auxiliary: the cycle loop consults the detail oracle only at flight
indices of the list it iterates over. -/
theorem cycleLoop_det_congr (det det' : Nat → Nat → Except PErr Detail)
    (active : List Runway) (l : List Flight) (i : Nat)
    (h : ∀ j k, i ≤ j → j < i + l.length → det' j k = det j k) :
    cycleLoop det' active l i = cycleLoop det active l i := by
  induction l generalizing i with
  | nil => rfl
  | cons f fs ih =>
    rw [cycleLoop, cycleLoop]
    have hdet : ∀ k, det' i k = det i k :=
      fun k => h i k le_rfl (by simp)
    have hfl : flightLoop (fun k => attemptBody active f (det' i k))
        0 RETRIES =
        flightLoop (fun k => attemptBody active f (det i k)) 0 RETRIES := by
      congr 1
      funext k
      rw [hdet k]
    rw [hfl, ih (i + 1) (fun j k hj hjl => h j k (by omega)
      (by simp only [List.length_cons]; omega))]

/-- Auxiliary: a flight classified with a non-None operation has both the
altitude and the vertical-speed attribute. -/
theorem determine_operation_some_fields (f : Flight) (op : String)
    (h : determine_operation f = some op) :
    ∃ a v, f.altitude = some a ∧ f.vertical_speed = some v := by
  unfold determine_operation at h
  cases ha : f.altitude with
  | none => rw [ha] at h; exact Option.noConfusion h
  | some a =>
    cases hv : f.vertical_speed with
    | none => rw [ha, hv] at h; exact Option.noConfusion h
    | some v => exact ⟨a, v, rfl, rfl⟩

/-- C9: in one cycle the runway configuration is computed from the full
provider-returned flight list, before truncation, and only the first
MAX_FLIGHT_LOOKUP (10) flights, in provider order, proceed to detail
lookup: the final configuration is that of the full list; the stored data
of a successful cycle is exactly the output of the loop over the first 10
flights in order; and the cycle's outcome is unchanged by any change of
the detail oracle at indices 10 and beyond. -/
theorem claim_C9_full_list_config (p : Provider) (s : TrackerState)
    (fs : List Flight) (hf : p.flights = .ok fs) :
    (grab_data p s).active_runways = determine_runway_config fs ∧
    ((grab_data p s).new_data = true →
      cycleLoop p.details (determine_runway_config fs)
        (fs.take MAX_FLIGHT_LOOKUP) 0 = .ok ((grab_data p s).data)) ∧
    (∀ p' : Provider, p'.flights = .ok fs →
      (∀ i k, i < MAX_FLIGHT_LOOKUP → p'.details i k = p.details i k) →
      grab_data p' s = grab_data p s) := by
  refine ⟨?_, ?_, ?_⟩
  · cases hc : cycleLoop p.details (determine_runway_config fs)
        (fs.take MAX_FLIGHT_LOOKUP) 0 with
    | ok ds => simp [grab_data, hf, hc]
    | error e => simp [grab_data, hf, hc]
  · intro hnew
    cases hc : cycleLoop p.details (determine_runway_config fs)
        (fs.take MAX_FLIGHT_LOOKUP) 0 with
    | error e =>
      exfalso
      rw [show (grab_data p s).new_data = false by simp [grab_data, hf, hc]]
        at hnew
      exact Bool.noConfusion hnew
    | ok ds =>
      rw [show (grab_data p s).data = ds by simp [grab_data, hf, hc]]
  · intro p' hf' hdet
    have hcong : cycleLoop p'.details (determine_runway_config fs)
        (fs.take MAX_FLIGHT_LOOKUP) 0 =
        cycleLoop p.details (determine_runway_config fs)
          (fs.take MAX_FLIGHT_LOOKUP) 0 := by
      refine cycleLoop_det_congr _ _ _ _ _ (fun j k hj hjl => hdet j k ?_)
      have := List.length_take_le MAX_FLIGHT_LOOKUP fs
      omega
    simp only [grab_data, hf, hf', hcong]

/-- Witness for C9: the empty cycle's final configuration is the one
inferred from its (empty) full flight list. -/
theorem claim_C9_witness :
    (grab_data pEmpty initState).active_runways =
      determine_runway_config [] :=
  (claim_C9_full_list_config pEmpty initState [] rfl).1

/-- C10: every record of a successful cycle comes from a flight of the
truncated list possessing all of the callsign, altitude, vertical-speed
and heading attributes; and a flight whose operation and runway are both
determined but whose callsign or heading attribute is missing raises the
field-error class during record construction, so the attempt counts as a
retry-triggering failure (after which exhausting the retries drops the
flight, by C8). -/
theorem claim_C10_record_fields :
    (∀ (p : Provider) (s : TrackerState) (fs : List Flight),
      p.flights = .ok fs → (grab_data p s).new_data = true →
      ∀ fd ∈ (grab_data p s).data,
        ∃ f ∈ fs.take MAX_FLIGHT_LOOKUP,
          f.callsign = some fd.callsign ∧ f.altitude = some fd.altitude ∧
          f.vertical_speed = some fd.vertical_speed ∧
          f.heading = some fd.heading) ∧
    (∀ (active : List Runway) (f : Flight) (det : Detail),
      determine_operation f ≠ none → determine_runway active f ≠ none →
      (f.callsign = none ∨ f.heading = none) →
      attemptBody active f (.ok det) = .error PErr.fieldErr) := by
  constructor
  · intro p s fs hf hnew fd hm
    cases hc : cycleLoop p.details (determine_runway_config fs)
        (fs.take MAX_FLIGHT_LOOKUP) 0 with
    | error e =>
      exfalso
      rw [show (grab_data p s).new_data = false by simp [grab_data, hf, hc]]
        at hnew
      exact Bool.noConfusion hnew
    | ok ds =>
      rw [show (grab_data p s).data = ds by simp [grab_data, hf, hc]] at hm
      obtain ⟨f, hfm, d, hd⟩ := cycleLoop_mem _ _ _ _ _ hc fd hm
      obtain ⟨h1, h2, h3, h4, -, -⟩ := attemptBody_ok_some _ _ _ _ hd
      exact ⟨f, hfm, h1, h2, h3, h4⟩
  · intro active f det hop hrw hmiss
    rcases hop' : determine_operation f with _ | op
    · exact absurd hop' hop
    obtain ⟨a, v, ha, hv⟩ := determine_operation_some_fields f op hop'
    rcases hrw' : determine_runway active f with _ | rw
    · exact absurd hrw' hrw
    unfold attemptBody
    rcases hmiss with hcs | hhd
    · simp [hop', hrw', hcs]
    · cases hcs : f.callsign with
      | none => simp [hop', hrw', hcs]
      | some cs => simp [hop', hrw', hcs, ha, hv, hhd]

/-- Witness for C10: a landing flight at the 28L threshold with no
callsign attribute makes the attempt raise the retried field-error
class. -/
theorem claim_C10_witness :
    attemptBody pair28 flightNoCallsign (.ok ⟨none, none⟩) =
      .error PErr.fieldErr :=
  claim_C10_record_fields.2 pair28 flightNoCallsign ⟨none, none⟩
    (by decide)
    (by
      norm_num [determine_runway, runwayScan, dist2, RUNWAY_28_THRESHOLD,
        RUNWAY_PROXIMITY_THRESHOLD, pair28, flightNoCallsign]
      simp)
    (Or.inl rfl)

end PlaneTracker
